import Mathlib

/-!
Shallow embedding of the kudo orchestrator core: the controller's instance
model (`model.rs`), the scheduler's `InstanceStop` event handler
(`instance_stop.rs`), and the node agent's startup retry loops, heartbeat
stream and instance service (`main.rs`).

Rust `u64` fields are embedded as `Nat` (the code only copies them, never
computes with them), `i32` fields as `Int`, fallible operations as
`Except`/`Option`, and a `panic!`/`unwrap` failure as an explicit outcome
constructor.  Nondeterministic inputs (the random id suffix, the results of
network calls, the resource sampler) are passed as explicit parameters.
-/

namespace Kudo

/-! ## Wire (proto) message shapes, as used by the embedded code -/

namespace proto

/-- `proto::scheduler::ResourceSummary { cpu, memory, disk }`, `u64` fields. -/
structure ResourceSummary where
  cpu : Nat
  memory : Nat
  disk : Nat
deriving Repr, DecidableEq

/-- `proto::scheduler::Resource { limit?, usage? }`. -/
structure Resource where
  limit : Option ResourceSummary
  usage : Option ResourceSummary
deriving Repr, DecidableEq

/-- `proto::scheduler::Port { source, destination }`, `i32` fields. -/
structure Port where
  source : Int
  destination : Int
deriving Repr, DecidableEq

/-- `proto::scheduler::Instance`, the wire shape built by
`Into<proto::scheduler::Instance> for Instance` in `model.rs`. -/
structure Instance where
  id : String
  name : String
  type : Int
  status : Int
  environnement : List String
  ip : String
  ports : List Port
  resource : Option Resource
  uri : String
deriving Repr, DecidableEq

/-- `proto::scheduler::InstanceStatus { id, status, status_description,
resource }`; `Instance::update_instance` reads `status`,
`status_description` and `resource`. -/
structure InstanceStatus where
  id : String
  status : Int
  status_description : String
  resource : Option Resource
deriving Repr, DecidableEq

/-- `proto::scheduler::NodeStatus { id, status, status_description,
resource }`, the heartbeat report shape. -/
structure NodeStatus where
  id : String
  status : Int
  status_description : String
  resource : Option Resource
deriving Repr, DecidableEq

end proto

/-! ## Enums generated from the proto files (not present under `src/`) -/

/-- Modelled from the spec: the proto-generated instance lifecycle enum
(`proto::controller::InstanceState`); the spec lists the states
`{Scheduling, Running, Stopped, Failed, …}` forming the instance's
lifecycle.  Discriminants are assigned in listing order. -/
inductive InstanceState
  | Scheduling
  | Running
  | Stopped
  | Failed
deriving Repr, DecidableEq

/-- Modelled from the spec: prost's `InstanceState::from_i32`, which
returns `Some` exactly on the discriminants of the declared variants and
`None` on every other `i32`. -/
def InstanceState.from_i32 (n : Int) : Option InstanceState :=
  if n = 0 then some InstanceState.Scheduling
  else if n = 1 then some InstanceState.Running
  else if n = 2 then some InstanceState.Stopped
  else if n = 3 then some InstanceState.Failed
  else none

/-- Modelled from the spec: `InstanceState as i32` (prost discriminant). -/
def InstanceState.to_i32 : InstanceState → Int
  | InstanceState.Scheduling => 0
  | InstanceState.Running => 1
  | InstanceState.Stopped => 2
  | InstanceState.Failed => 3

/-- Modelled from the spec: the proto-generated workload `Type` enum; only
the `Container` variant is used at instance creation. -/
inductive InstanceType
  | Container
deriving Repr, DecidableEq

/-- Modelled from the spec: `Type as i32` (prost discriminant). -/
def InstanceType.to_i32 : InstanceType → Int
  | InstanceType.Container => 0

/-- Modelled from the spec: the proto scheduler `Status` enum; only the
`Running` discriminant is used by the heartbeat stream. -/
inductive SchedulerStatus
  | Running
deriving Repr, DecidableEq

/-- Modelled from the spec: `Status::Running as i32`. -/
def SchedulerStatus.to_i32 : SchedulerStatus → Int
  | SchedulerStatus.Running => 1

/-! ## Controller instance model (`controller/lib/src/external_api/instance/model.rs`) -/

/-- `std::net::Ipv4Addr`: four `u8` octets. -/
structure Ipv4Addr where
  oct0 : Nat
  oct1 : Nat
  oct2 : Nat
  oct3 : Nat
deriving Repr, DecidableEq

/-- `Ipv4Addr::new(a, b, c, d)`. -/
def Ipv4Addr.new (a b c d : Nat) : Ipv4Addr :=
  { oct0 := a, oct1 := b, oct2 := c, oct3 := d }

/-- `Ipv4Addr`'s dotted-quad `to_string`. -/
def Ipv4Addr.to_string (ip : Ipv4Addr) : String :=
  toString ip.oct0 ++ "." ++ toString ip.oct1 ++ "." ++ toString ip.oct2
    ++ "." ++ toString ip.oct3

/-- Controller-side `ResourceSummary { cpu, memory, disk }`, `u64` fields. -/
structure ResourceSummary where
  cpu : Nat
  memory : Nat
  disk : Nat
deriving Repr, DecidableEq

/-- Controller-side `Resource { limit, usage }`. -/
structure Resource where
  limit : Option ResourceSummary
  usage : Option ResourceSummary
deriving Repr, DecidableEq

/-- Controller-side `Port { source, dest }`, `i32` fields. -/
structure Port where
  source : Int
  dest : Int
deriving Repr, DecidableEq

/-- Controller-side `Instance` struct of `model.rs`.  The Rust field
`namespace` is a Lean keyword and is embedded as `namespace_`. -/
structure Instance where
  id : String
  name : String
  type : InstanceType
  state : InstanceState
  status_description : String
  num_restarts : Int
  uri : String
  environment : List String
  resource : Option Resource
  ports : List Port
  ip : Ipv4Addr
  namespace_ : String
deriving Repr, DecidableEq

/-- `Instance::update_instance(&mut self, instance_status)`: assigns
`state` (via `InstanceState::from_i32(..).unwrap_or(Scheduling)`),
`status_description`, and `resource` (the whole optional pair, rebuilt
from the report); every other field is untouched. -/
def Instance.update_instance (self : Instance)
    (instance_status : proto.InstanceStatus) : Instance :=
  { self with
    state := (InstanceState.from_i32 instance_status.status).getD
      InstanceState.Scheduling,
    status_description := instance_status.status_description,
    resource := instance_status.resource.map (fun resource =>
      { limit := resource.limit.map (fun resource_summary =>
          { cpu := resource_summary.cpu, memory := resource_summary.memory,
            disk := resource_summary.disk }),
        usage := resource.usage.map (fun resource_summary =>
          { cpu := resource_summary.cpu, memory := resource_summary.memory,
            disk := resource_summary.disk }) }) }

/-- `impl Into<proto::scheduler::Instance> for Instance`. -/
def Instance.into_proto (self : Instance) : proto.Instance :=
  { id := self.id,
    name := self.name,
    type := self.type.to_i32,
    status := self.state.to_i32,
    environnement := self.environment,
    ip := self.ip.to_string,
    ports := self.ports.map (fun port =>
      { source := port.source, destination := port.dest }),
    resource := self.resource.map (fun resource =>
      { limit := resource.limit.map (fun resource_summary =>
          { cpu := resource_summary.cpu, memory := resource_summary.memory,
            disk := resource_summary.disk }),
        usage := resource.usage.map (fun resource_summary =>
          { cpu := resource_summary.cpu, memory := resource_summary.memory,
            disk := resource_summary.disk }) }),
    uri := self.uri }

/-- The fields of the controller's `Workload` model that
`impl From<Workload> for Instance` reads (the workload model file itself
is outside the embedded sources; its field set here is exactly the set the
conversion uses).  `resources` is the declared `{cpu, memory, disk}`
triple; `ports` carries `{source, destination}` pairs. -/
structure Workload where
  id : String
  name : String
  uri : String
  environment : List String
  namespace_ : String
  resources : ResourceSummary
  ports : List proto.Port
deriving Repr, DecidableEq

/-- `impl From<Workload> for Instance`.  The five-character alphanumeric
suffix drawn from `rand::thread_rng()` is passed in as `random_id`. -/
def Instance.from_workload (workload : Workload) (random_id : String) :
    Instance :=
  { id := workload.id ++ "-" ++ random_id,
    name := workload.name ++ "-" ++ random_id,
    type := InstanceType.Container,
    state := InstanceState.Scheduling,
    status_description := "",
    num_restarts := 0,
    uri := workload.uri,
    environment := workload.environment,
    namespace_ := workload.namespace_,
    resource := some
      { limit := some
          { cpu := workload.resources.cpu,
            memory := workload.resources.memory,
            disk := workload.resources.disk },
        usage := none },
    ports := workload.ports.map (fun port =>
      { source := port.source, dest := port.destination }),
    ip := Ipv4Addr.new 10 0 0 1 }

/-! ## Scheduler `InstanceStop` event handler (`scheduler/src/event/handlers/instance_stop.rs`) -/

/-- The caller-facing status codes built by the embedded handlers
(`tonic::Status`); only `internal` is constructed in the embedded code. -/
inductive StatusCode
  | internal
deriving Repr, DecidableEq

/-- `tonic::Status`: a code plus a message string. -/
structure Status where
  code : StatusCode
  message : String
deriving Repr, DecidableEq

/-- Outcome of a task that may `unwrap` an `Err`: either it ran to
completion or it panicked. -/
inductive TaskOutcome
  | completed
  | panicked
deriving Repr, DecidableEq

/-- `InstanceStopHandler::handle`.  `stop_result` is what
`orchestrator.stop_instance(id)` returned, with the orchestrator error
represented by its debug-format string.  `receiver_open` tells whether the
oneshot receiver is still alive, i.e. whether `tx.send(..)` succeeds.  The
first component is the reply the handler sends on `tx` (`Ok(Response::new(()))`
on success, `Status::internal(format of the error)` on failure); the second
records that the handler calls `.unwrap()` on the send result, so a failed
send panics the handler instead of being logged. -/
def InstanceStopHandler.handle (stop_result : Except String Unit)
    (receiver_open : Bool) : (Except Status Unit) × TaskOutcome :=
  match stop_result with
  | Except.ok _ =>
      (Except.ok (),
       if receiver_open then TaskOutcome.completed else TaskOutcome.panicked)
  | Except.error err =>
      (Except.error
        { code := StatusCode.internal,
          message := "Error thrown by the orchestrator: " ++ err },
       if receiver_open then TaskOutcome.completed else TaskOutcome.panicked)

/-- `needle` occurs verbatim inside `haystack`. -/
def contains_substring (needle haystack : String) : Prop :=
  ∃ pre post : String, haystack = pre ++ needle ++ post

/-! ## Node agent instance service (`node-agent/src/main.rs`) -/

/-- `InstanceServiceController::signal`.  The handler spawns the actual
`workload_manager.signal(..)` call on a separate task and immediately
answers `Ok(Response::new(()))`.  `signal_result` is what the spawned
`signal` call returns (error represented by its message).  The first
component is the RPC reply sent to the caller; the second is the fate of
the spawned task, which maps an error to `Status::internal("Cannot send
signal to the workload")` and then `.unwrap()`s it, i.e. panics. -/
def InstanceServiceController.signal (signal_result : Except String Unit) :
    (Except Status Unit) × TaskOutcome :=
  (Except.ok (),
   match signal_result with
   | Except.ok _ => TaskOutcome.completed
   | Except.error _ => TaskOutcome.panicked)

/-! ## Node agent startup retry loops (`node-agent/src/main.rs`) -/

/-- `const NUMBER_OF_CONNECTION_ATTEMPTS: u16 = 10;` -/
def NUMBER_OF_CONNECTION_ATTEMPTS : Nat := 10

/-- The fixed `sleep(Duration::from_secs(1))` delay before each retry. -/
def RETRY_DELAY_SECONDS : Nat := 1

/-- Result of one startup phase: the obtained value, or the `panic!`
message after exhausting the retries. -/
inductive PhaseResult (α : Type)
  | ok (value : α)
  | fatal (msg : String)
deriving Repr, DecidableEq

/-- Observable trace of one startup phase: its result, the number of times
the phase's operation was invoked, and the number of 1-second sleeps. -/
structure PhaseOutcome (α : Type) where
  result : PhaseResult α
  calls : Nat
  sleeps : Nat
deriving Repr, DecidableEq

/-- The retry loop body shared by the three phases of `create_grpc_client`:

```
while result.is_none() {
    if attempts <= NUMBER_OF_CONNECTION_ATTEMPTS {
        sleep(Duration::from_secs(1));
        result = op().await;            // the (calls)-th invocation
        attempts += 1;
    } else { panic!(msg) }
}
```

`oracle n` is the result of the `n`-th invocation of the phase's operation
(0-indexed).  The loop counter is embedded by its remaining budget
`remaining = NUMBER_OF_CONNECTION_ATTEMPTS + 1 - attempts`, so the guard
`attempts <= NUMBER_OF_CONNECTION_ATTEMPTS` becomes `remaining > 0`.
`calls` invocations have already been made (all failed) and `sleeps`
sleeps have already been taken when the loop is entered. -/
def startup_retry_go {α : Type} (oracle : Nat → Option α) (msg : String) :
    Nat → Nat → Nat → PhaseOutcome α
  | 0, calls, sleeps =>
      { result := PhaseResult.fatal msg, calls := calls, sleeps := sleeps }
  | remaining + 1, calls, sleeps =>
      match oracle calls with
      | some v =>
          { result := PhaseResult.ok v, calls := calls + 1,
            sleeps := sleeps + 1 }
      | none => startup_retry_go oracle msg remaining (calls + 1) (sleeps + 1)

/-- One startup phase of `create_grpc_client`: a first invocation before
the loop, then the bounded retry loop with counter starting at 0
(remaining budget `NUMBER_OF_CONNECTION_ATTEMPTS + 1`). -/
def startup_retry {α : Type} (oracle : Nat → Option α) (msg : String) :
    PhaseOutcome α :=
  match oracle 0 with
  | some v => { result := PhaseResult.ok v, calls := 1, sleeps := 0 }
  | none =>
      startup_retry_go oracle msg (NUMBER_OF_CONNECTION_ATTEMPTS + 1) 1 0

/-- Phase 1 of `create_grpc_client`: `connect_to_scheduler` with its
panic message. -/
def connect_phase {α : Type} (oracle : Nat → Option α) : PhaseOutcome α :=
  startup_retry oracle "Error, unable to connect to the Scheduler server."

/-- Phase 2 of `create_grpc_client`: `register_to_scheduler` with its
panic message. -/
def register_phase {α : Type} (oracle : Nat → Option α) : PhaseOutcome α :=
  startup_retry oracle "Error, unable to register to the Scheduler."

/-- Phase 3 of `create_grpc_client`: `send_node_status_to_scheduler` with
its panic message. -/
def send_node_status_phase {α : Type} (oracle : Nat → Option α) :
    PhaseOutcome α :=
  startup_retry oracle "Error, unable to send node status to the Scheduler."

/-! ## Node agent heartbeat stream (`send_node_status_to_scheduler`) -/

/-- `time::interval(Duration::from_secs(1))` of the heartbeat stream. -/
def HEARTBEAT_INTERVAL_SECONDS : Nat := 1

/-- The `NodeStatus` yielded at tick `n` of the stream built by
`send_node_status_to_scheduler`.  `cpu_limit`, `memory_limit` and
`disk_limit` are the `total_*` values sampled once before the loop;
`used_cpu n`, `used_memory n` and `used_disk n` are the `used_*` values
sampled at tick `n` inside the loop. -/
def send_node_status_stream (node_id : String)
    (cpu_limit memory_limit disk_limit : Nat)
    (used_cpu used_memory used_disk : Nat → Nat) (n : Nat) :
    proto.NodeStatus :=
  { id := node_id,
    status := SchedulerStatus.to_i32 SchedulerStatus.Running,
    status_description := "",
    resource := some
      { limit := some
          { cpu := cpu_limit, memory := memory_limit, disk := disk_limit },
        usage := some
          { cpu := used_cpu n, memory := used_memory n,
            disk := used_disk n } } }

/-! ## Concrete example values -/

/-- A concrete instance: limit `{4, 8192, 100}` fixed at creation, usage
not yet populated. -/
def inst0 : Instance :=
  { id := "nginx-wl-Ab3x9", name := "nginx-Ab3x9",
    type := InstanceType.Container, state := InstanceState.Running,
    status_description := "ok", num_restarts := 0,
    uri := "docker.io/library/nginx",
    environment := ["KEY=VALUE"],
    resource := some
      { limit := some { cpu := 4, memory := 8192, disk := 100 },
        usage := none },
    ports := [{ source := 80, dest := 8080 }],
    ip := Ipv4Addr.new 10 0 0 1,
    namespace_ := "default" }

/-- A node-originated status report whose resource carries a limit triple
different from `inst0`'s. -/
def report0 : proto.InstanceStatus :=
  { id := "nginx-wl-Ab3x9", status := 1, status_description := "running",
    resource := some
      { limit := some { cpu := 1, memory := 2, disk := 3 },
        usage := some { cpu := 9, memory := 9, disk := 9 } } }

/-- A status report whose `status` integer (99) decodes to no
`InstanceState`. -/
def report_invalid_status : proto.InstanceStatus :=
  { id := "nginx-wl-Ab3x9", status := 99, status_description := "garbled",
    resource := none }

/-! ## Claim theorems -/

/-- C1 counterexample: on a successful stop whose reply channel receiver
was dropped, `InstanceStopHandler::handle` panics (it unwraps the failed
`tx.send`), refuting the claim that a reply-send failure is only logged
and never causes a panic. -/
theorem C1_counterexample :
    (InstanceStopHandler.handle (Except.ok ()) false).snd =
      TaskOutcome.panicked := rfl

/-- C1 amended: `InstanceStopHandler::handle` completes when the reply
channel receiver is still open, and panics (via `.unwrap()` on the send
result) whenever the receiver is closed or dropped — the failure is not
logged-and-survived. -/
theorem C1_theorem (stop_result : Except String Unit) :
    (InstanceStopHandler.handle stop_result false).snd =
        TaskOutcome.panicked ∧
      (InstanceStopHandler.handle stop_result true).snd =
        TaskOutcome.completed := by
  cases stop_result <;> exact ⟨rfl, rfl⟩

/-- C2 counterexample: an operation that fails on its first 11 invocations
and succeeds on the 12th still lets the connect phase succeed with 12
calls made, so the claimed bound of 11 total attempts is wrong. -/
theorem C2_counterexample :
    (connect_phase (fun n => if n = 11 then some () else none)).result =
        PhaseResult.ok () ∧
      (connect_phase (fun n => if n = 11 then some () else none)).calls =
        12 ∧
      ¬ (connect_phase (fun n => if n = 11 then some () else none)).calls
          ≤ 11 :=
  ⟨rfl, rfl, by decide⟩

/-- Helper: if every invocation fails, the retry loop runs its remaining
budget to exhaustion, adding `remaining` calls and `remaining` sleeps,
then panics with the phase's message. -/
theorem startup_retry_go_none {α : Type} (oracle : Nat → Option α)
    (msg : String) (h : ∀ n, oracle n = none) (remaining : Nat) :
    ∀ calls sleeps : Nat,
      startup_retry_go oracle msg remaining calls sleeps =
        { result := PhaseResult.fatal msg, calls := calls + remaining,
          sleeps := sleeps + remaining } := by
  induction remaining with
  | zero => intro calls sleeps; simp [startup_retry_go]
  | succ k ih =>
      intro calls sleeps
      rw [startup_retry_go, h calls, ih (calls + 1) (sleeps + 1)]
      have h1 : calls + 1 + k = calls + (k + 1) := by omega
      have h2 : sleeps + 1 + k = sleeps + (k + 1) := by omega
      rw [h1, h2]

/-- C2 amended: in each of the three startup phases, when every invocation
fails the agent makes `NUMBER_OF_CONNECTION_ATTEMPTS + 2 = 12` total
invocations (the initial one plus 11 retries, because the loop guard is
`attempts <= NUMBER_OF_CONNECTION_ATTEMPTS` with `attempts` starting at
0), sleeps the fixed 1-second delay before each retry (11 sleeps), and
then terminates the process with the phase's fatal message; the count is
identical for connect, register, and status-stream establishment. -/
theorem C2_theorem {α : Type} (oracle : Nat → Option α)
    (h : ∀ n, oracle n = none) :
    connect_phase oracle =
        { result := PhaseResult.fatal
            "Error, unable to connect to the Scheduler server.",
          calls := 12, sleeps := 11 } ∧
      register_phase oracle =
        { result := PhaseResult.fatal
            "Error, unable to register to the Scheduler.",
          calls := 12, sleeps := 11 } ∧
      send_node_status_phase oracle =
        { result := PhaseResult.fatal
            "Error, unable to send node status to the Scheduler.",
          calls := 12, sleeps := 11 } ∧
      NUMBER_OF_CONNECTION_ATTEMPTS + 2 = 12 ∧
      RETRY_DELAY_SECONDS = 1 := by
  refine ⟨?_, ?_, ?_, rfl, rfl⟩ <;>
    simp [connect_phase, register_phase, send_node_status_phase,
      startup_retry, h 0, NUMBER_OF_CONNECTION_ATTEMPTS,
      startup_retry_go_none oracle _ h]

/-- C2 witness: the amended theorem applied to the never-succeeding
operation. -/
theorem C2_witness :
    connect_phase (fun _ => (none : Option Unit)) =
        { result := PhaseResult.fatal
            "Error, unable to connect to the Scheduler server.",
          calls := 12, sleeps := 11 } ∧
      register_phase (fun _ => (none : Option Unit)) =
        { result := PhaseResult.fatal
            "Error, unable to register to the Scheduler.",
          calls := 12, sleeps := 11 } ∧
      send_node_status_phase (fun _ => (none : Option Unit)) =
        { result := PhaseResult.fatal
            "Error, unable to send node status to the Scheduler.",
          calls := 12, sleeps := 11 } ∧
      NUMBER_OF_CONNECTION_ATTEMPTS + 2 = 12 ∧
      RETRY_DELAY_SECONDS = 1 :=
  C2_theorem (fun _ => none) (fun _ => rfl)

/-- C3 counterexample: `update_instance` replaces the whole `resource`
pair from the report, so an instance whose limit was `{4, 8192, 100}` at
creation ends up with the report's limit `{1, 2, 3}` — `resource.limit`
is not left unchanged. -/
theorem C3_counterexample :
    inst0.resource = some
        { limit := some { cpu := 4, memory := 8192, disk := 100 },
          usage := none } ∧
      (inst0.update_instance report0).resource = some
        { limit := some { cpu := 1, memory := 2, disk := 3 },
          usage := some { cpu := 9, memory := 9, disk := 9 } } ∧
      (inst0.update_instance report0).resource ≠ inst0.resource := by
  refine ⟨rfl, rfl, by decide⟩

/-- C3 amended: `update_instance` overwrites `state`,
`status_description`, and the entire `resource` field (both `limit` and
`usage` are rebuilt from the report, so the creation-time limit is NOT
preserved); every other field of the instance is left unchanged. -/
theorem C3_theorem (inst : Instance) (report : proto.InstanceStatus) :
    (inst.update_instance report).state =
        (InstanceState.from_i32 report.status).getD
          InstanceState.Scheduling ∧
      (inst.update_instance report).status_description =
        report.status_description ∧
      (inst.update_instance report).resource =
        report.resource.map (fun resource =>
          { limit := resource.limit.map (fun resource_summary =>
              { cpu := resource_summary.cpu,
                memory := resource_summary.memory,
                disk := resource_summary.disk }),
            usage := resource.usage.map (fun resource_summary =>
              { cpu := resource_summary.cpu,
                memory := resource_summary.memory,
                disk := resource_summary.disk }) }) ∧
      (inst.update_instance report).id = inst.id ∧
      (inst.update_instance report).name = inst.name ∧
      (inst.update_instance report).type = inst.type ∧
      (inst.update_instance report).num_restarts = inst.num_restarts ∧
      (inst.update_instance report).uri = inst.uri ∧
      (inst.update_instance report).environment = inst.environment ∧
      (inst.update_instance report).ports = inst.ports ∧
      (inst.update_instance report).ip = inst.ip ∧
      (inst.update_instance report).namespace_ = inst.namespace_ :=
  ⟨rfl, rfl, rfl, rfl, rfl, rfl, rfl, rfl, rfl, rfl, rfl, rfl⟩

/-- C4: the instance created from a workload has id
`workload.id ++ "-" ++ suffix`, name formed the same way from the
workload's name with the same suffix, state `Scheduling`, zero restarts,
`resource.limit` equal to the workload's declared cpu/memory/disk triple,
and `resource.usage` unset. -/
theorem C4_theorem (workload : Workload) (random_id : String) :
    (Instance.from_workload workload random_id).id =
        workload.id ++ "-" ++ random_id ∧
      (Instance.from_workload workload random_id).name =
        workload.name ++ "-" ++ random_id ∧
      (Instance.from_workload workload random_id).state =
        InstanceState.Scheduling ∧
      (Instance.from_workload workload random_id).num_restarts = 0 ∧
      (Instance.from_workload workload random_id).resource = some
        { limit := some
            { cpu := workload.resources.cpu,
              memory := workload.resources.memory,
              disk := workload.resources.disk },
          usage := none } :=
  ⟨rfl, rfl, rfl, rfl, rfl⟩

/-- C5: every heartbeat report carries the node id, the limit triple
sampled once at stream start (identical at every tick), and the usage
triple freshly sampled at its own tick; the stream yields one report per
tick of the fixed 1-second interval. -/
theorem C5_theorem (node_id : String)
    (cpu_limit memory_limit disk_limit : Nat)
    (used_cpu used_memory used_disk : Nat → Nat) (n m : Nat) :
    (send_node_status_stream node_id cpu_limit memory_limit disk_limit
          used_cpu used_memory used_disk n).id = node_id ∧
      (send_node_status_stream node_id cpu_limit memory_limit disk_limit
          used_cpu used_memory used_disk n).resource = some
        { limit := some
            { cpu := cpu_limit, memory := memory_limit,
              disk := disk_limit },
          usage := some
            { cpu := used_cpu n, memory := used_memory n,
              disk := used_disk n } } ∧
      (send_node_status_stream node_id cpu_limit memory_limit disk_limit
            used_cpu used_memory used_disk n).resource.bind
          (fun resource => resource.limit) =
        (send_node_status_stream node_id cpu_limit memory_limit disk_limit
            used_cpu used_memory used_disk m).resource.bind
          (fun resource => resource.limit) ∧
      HEARTBEAT_INTERVAL_SECONDS = 1 :=
  ⟨rfl, rfl, rfl, rfl⟩

/-- C6: converting an `Instance` to its wire representation preserves the
id, maps each port to the same source/destination numbers in order (same
length), and maps the optional resource field structurally, preserving the
presence/absence of `resource`, `limit` and `usage` and every
cpu/memory/disk value. -/
theorem C6_theorem (inst : Instance) :
    (inst.into_proto).id = inst.id ∧
      (inst.into_proto).ports = inst.ports.map (fun port =>
        { source := port.source, destination := port.dest }) ∧
      (inst.into_proto).ports.length = inst.ports.length ∧
      (inst.into_proto).resource = inst.resource.map (fun resource =>
        { limit := resource.limit.map (fun resource_summary =>
            { cpu := resource_summary.cpu,
              memory := resource_summary.memory,
              disk := resource_summary.disk }),
          usage := resource.usage.map (fun resource_summary =>
            { cpu := resource_summary.cpu,
              memory := resource_summary.memory,
              disk := resource_summary.disk }) }) ∧
      ((inst.into_proto).resource.isSome ↔ inst.resource.isSome) := by
  refine ⟨rfl, rfl, ?_, rfl, ?_⟩
  · simp [Instance.into_proto]
  · simp [Instance.into_proto]

/-- C7 counterexample: when the workload manager cannot locate or signal
the instance, the signal RPC still answers success to the caller; the
failure only panics the spawned background task. -/
theorem C7_counterexample :
    (InstanceServiceController.signal
          (Except.error "instance not found")).fst = Except.ok () ∧
      (InstanceServiceController.signal
          (Except.error "instance not found")).snd =
        TaskOutcome.panicked :=
  ⟨rfl, rfl⟩

/-- C7 amended: the signal handler unconditionally replies success to the
caller of the signal RPC; a failing signal operation panics the spawned
background task (and is not retried), while a succeeding one completes
it — in neither case does the reply reflect the operation's outcome. -/
theorem C7_theorem :
    (∀ signal_result : Except String Unit,
        (InstanceServiceController.signal signal_result).fst =
          Except.ok ()) ∧
      (∀ e : String,
        (InstanceServiceController.signal (Except.error e)).snd =
          TaskOutcome.panicked) ∧
      (∀ u : Unit,
        (InstanceServiceController.signal (Except.ok u)).snd =
          TaskOutcome.completed) :=
  ⟨fun _ => rfl, fun _ => rfl, fun _ => rfl⟩

/-- C8 counterexample: for the orchestrator failure whose debug text is
`InstanceNotFound`, the caller-facing status message is
`Error thrown by the orchestrator: InstanceNotFound`, which contains the
internal detail verbatim. -/
theorem C8_counterexample :
    (InstanceStopHandler.handle (Except.error "InstanceNotFound")
          true).fst =
        Except.error
          { code := StatusCode.internal,
            message :=
              "Error thrown by the orchestrator: InstanceNotFound" } ∧
      contains_substring "InstanceNotFound"
        "Error thrown by the orchestrator: InstanceNotFound" :=
  ⟨rfl, ⟨"Error thrown by the orchestrator: ", "", by decide⟩⟩

/-- C8 amended: for every orchestrator failure of `stop_instance`, the
handler builds an internal status whose message is the fixed prefix
followed by the orchestrator error's debug text, so the internal detail
string always appears verbatim in the caller-facing status. -/
theorem C8_theorem (err : String) :
    (InstanceStopHandler.handle (Except.error err) true).fst =
        Except.error
          { code := StatusCode.internal,
            message := "Error thrown by the orchestrator: " ++ err } ∧
      contains_substring err
        ("Error thrown by the orchestrator: " ++ err) := by
  refine ⟨rfl, ⟨"Error thrown by the orchestrator: ", "", ?_⟩⟩
  simp

/-- C9: `update_instance` is total over all status integers; whenever the
report's status decodes to no valid `InstanceState`, the instance's state
is set to `Scheduling`. -/
theorem C9_theorem (inst : Instance) (report : proto.InstanceStatus)
    (h : InstanceState.from_i32 report.status = none) :
    (inst.update_instance report).state = InstanceState.Scheduling := by
  simp [Instance.update_instance, h]

/-- C9 witness: the theorem applied to `inst0` and a report with the
invalid status integer 99. -/
theorem C9_witness :
    (inst0.update_instance report_invalid_status).state =
      InstanceState.Scheduling :=
  C9_theorem inst0 report_invalid_status (by decide)

/-- C10: every instance created from a workload gets the fixed IP address
10.0.0.1, so any two instances created this way have the same ip field. -/
theorem C10_theorem :
    (∀ (w : Workload) (r : String),
        (Instance.from_workload w r).ip = Ipv4Addr.new 10 0 0 1) ∧
      (∀ (w1 : Workload) (r1 : String) (w2 : Workload) (r2 : String),
        (Instance.from_workload w1 r1).ip =
          (Instance.from_workload w2 r2).ip) :=
  ⟨fun _ _ => rfl, fun _ _ _ _ => rfl⟩

end Kudo
